import Mathlib

/-!
Verification of the PC-Metrics repository: a shallow embedding of the
simulator (`simulate_pc_metrics.py`), the telemetry aggregator and
fan-curve recommender (`claude_ai.py`), and the log reader (`app.py`),
together with theorems settling the specification claims.

Python floats are modelled as exact real (or rational) arithmetic; the
wall clock (`time.time()`) and every random draw are explicit inputs of
each tick, so a run is a function of its input streams.
-/

namespace PCMetrics

/-- Component keys of `config.COMPONENT_IDLE_TEMPS` / `COMPONENT_MAX_TEMPS` (config.py). -/
inductive Component where
  | cpu
  | gpu
  | ssd
  | motherboard
deriving DecidableEq

/-- config.py `COMPONENT_IDLE_TEMPS`. -/
def COMPONENT_IDLE_TEMPS : Component → ℝ
  | .cpu => 42.0
  | .gpu => 38.0
  | .ssd => 35.0
  | .motherboard => 33.0

/-- config.py `COMPONENT_MAX_TEMPS`. -/
def COMPONENT_MAX_TEMPS : Component → ℝ
  | .cpu => 88.0
  | .gpu => 85.0
  | .ssd => 70.0
  | .motherboard => 60.0

/-- Fan keys of `config.FAN_IDLE_SPEEDS` (config.py). -/
inductive Fan where
  | cpu_fan
  | gpu_fan
  | case_fan
deriving DecidableEq

/-- config.py `FAN_IDLE_SPEEDS`. -/
def FAN_IDLE_SPEEDS : Fan → ℝ
  | .cpu_fan => 1200
  | .gpu_fan => 1000
  | .case_fan => 800

/-- config.py `GAMING_SESSION_START_PROBABILITY`. -/
def GAMING_SESSION_START_PROBABILITY : ℝ := 0.02

/-- config.py `GAMING_WARMUP_TIME` (ticks). -/
def GAMING_WARMUP_TIME : ℕ := 30

/-- config.py `GAMING_DURATION` (ticks). -/
def GAMING_DURATION : ℕ := 120

/-- config.py `GAMING_COOLDOWN_RATE`. -/
def GAMING_COOLDOWN_RATE : ℝ := 0.02

/-- config.py `CLIENT_ID`. -/
def CLIENT_ID : String := "GamingPC4"

/-- The mutable attributes of `PCComponentSimulator` (simulate_pc_metrics.py,
`__init__`). -/
structure SimState where
  cpuTemp : ℝ
  gpuTemp : ℝ
  ssdTemp : ℝ
  motherboardTemp : ℝ
  cpuFanRpm : ℝ
  gpuFanRpm : ℝ
  caseFanRpm : ℝ
  gamingSession : Bool
  gamingIntensity : ℝ
  sessionTime : ℕ
  coolingPhase : Bool
  ambientTemp : ℝ

/-- The external inputs consumed by one tick: every `random.random()`,
`random.uniform(..)` and `random.randint(..)` draw of
`update_gaming_session` / `simulate_temperature_changes` /
`calculate_fan_speeds`, and the two `time.time()` samples taken during the
tick (one in `simulate_temperature_changes`, one in `get_sensor_data`). -/
structure TickRand where
  rStart : ℝ
  warmupJitter : ℝ
  activeJitter : ℝ
  cpuNoise : ℝ
  gpuNoise : ℝ
  ssdNoise : ℝ
  mbNoise : ℝ
  cpuFanJitter : ℤ
  gpuFanJitter : ℤ
  caseFanJitter : ℤ
  tTemp : ℝ
  tStamp : ℝ

/-- `PCComponentSimulator.__init__` (simulate_pc_metrics.py lines 31-54). -/
def initState : SimState :=
  { cpuTemp := COMPONENT_IDLE_TEMPS .cpu
    gpuTemp := COMPONENT_IDLE_TEMPS .gpu
    ssdTemp := COMPONENT_IDLE_TEMPS .ssd
    motherboardTemp := COMPONENT_IDLE_TEMPS .motherboard
    cpuFanRpm := FAN_IDLE_SPEEDS .cpu_fan
    gpuFanRpm := FAN_IDLE_SPEEDS .gpu_fan
    caseFanRpm := FAN_IDLE_SPEEDS .case_fan
    gamingSession := false
    gamingIntensity := 0.0
    sessionTime := 0
    coolingPhase := false
    ambientTemp := 22.0 }

/-- `PCComponentSimulator.update_gaming_session` (simulate_pc_metrics.py
lines 56-104).  The console prints have no state effect and are dropped. -/
noncomputable def update_gaming_session (s : SimState) (r : TickRand) : SimState :=
  if s.gamingSession = false then
    if r.rStart < GAMING_SESSION_START_PROBABILITY then
      { s with gamingSession := true
               sessionTime := 0
               coolingPhase := false
               gamingIntensity := 0.1 }
    else s
  else
    let st := s.sessionTime + 1
    if s.coolingPhase = false then
      if st ≤ GAMING_WARMUP_TIME then
        let targetIntensity := ((st : ℝ) / (GAMING_WARMUP_TIME : ℝ)) * 0.7
        { s with sessionTime := st
                 gamingIntensity := min 0.9 (targetIntensity + r.warmupJitter) }
      else if st ≤ GAMING_WARMUP_TIME + GAMING_DURATION then
        let baseIntensity := 0.75 + 0.2 * Real.sin ((st : ℝ) * 0.05)
        let sceneVariation := 0.15 * Real.sin ((st : ℝ) * 0.3)
        { s with sessionTime := st
                 gamingIntensity :=
                   max 0.5 (min 1.0 (baseIntensity + sceneVariation + r.activeJitter)) }
      else
        { s with sessionTime := st, coolingPhase := true }
    else
      let newIntensity := max 0 (s.gamingIntensity - GAMING_COOLDOWN_RATE)
      if newIntensity ≤ 0 then
        { s with gamingIntensity := newIntensity
                 gamingSession := false
                 sessionTime := 0 }
      else
        { s with sessionTime := st, gamingIntensity := newIntensity }

/-- `PCComponentSimulator.simulate_temperature_changes`
(simulate_pc_metrics.py lines 106-137).  `time.time()` is the input
`r.tTemp`; each `random.uniform` draw is the corresponding noise input. -/
noncomputable def simulate_temperature_changes (s : SimState) (r : TickRand) : SimState :=
  let timeFactor := r.tTemp * 0.0001
  let ambientVariation := 2.0 * Real.sin timeFactor
  let currentAmbient := s.ambientTemp + ambientVariation
  let cpuGamingLoad := s.gamingIntensity * 35.0
  let gpuGamingLoad := s.gamingIntensity * 40.0
  let ssdGamingLoad := s.gamingIntensity * 15.0
  let motherboardLoad := s.gamingIntensity * 12.0
  let cpuTarget := COMPONENT_IDLE_TEMPS .cpu + cpuGamingLoad + (currentAmbient - 22)
  let cpuChangeRate : ℝ := if s.gamingSession then 0.12 else 0.08
  let cpuDelta := (cpuTarget - s.cpuTemp) * cpuChangeRate + r.cpuNoise
  let gpuTarget := COMPONENT_IDLE_TEMPS .gpu + gpuGamingLoad + (currentAmbient - 22)
  let gpuChangeRate : ℝ := if s.gamingSession then 0.10 else 0.06
  let gpuDelta := (gpuTarget - s.gpuTemp) * gpuChangeRate + r.gpuNoise
  let ssdTarget := COMPONENT_IDLE_TEMPS .ssd + ssdGamingLoad + (currentAmbient - 22)
  let ssdChangeRate : ℝ := 0.06
  let ssdDelta := (ssdTarget - s.ssdTemp) * ssdChangeRate + r.ssdNoise
  let mbTarget := COMPONENT_IDLE_TEMPS .motherboard + motherboardLoad + (currentAmbient - 22)
  let mbChangeRate : ℝ := 0.05
  let mbDelta := (mbTarget - s.motherboardTemp) * mbChangeRate + r.mbNoise
  { s with
      cpuTemp := max 25.0 (min (COMPONENT_MAX_TEMPS .cpu) (s.cpuTemp + cpuDelta))
      gpuTemp := max 25.0 (min (COMPONENT_MAX_TEMPS .gpu) (s.gpuTemp + gpuDelta))
      ssdTemp := max 20.0 (min (COMPONENT_MAX_TEMPS .ssd) (s.ssdTemp + ssdDelta))
      motherboardTemp :=
        max 20.0 (min (COMPONENT_MAX_TEMPS .motherboard) (s.motherboardTemp + mbDelta)) }

/-- `PCComponentSimulator.calculate_fan_speeds` (simulate_pc_metrics.py
lines 139-181): piecewise-linear targets, smoothed approach, integer
jitter, then clamping. -/
noncomputable def calculate_fan_speeds (s : SimState) (r : TickRand) : SimState :=
  let cpuFanTarget : ℝ :=
    if s.cpuTemp < 45 then 800 + (s.cpuTemp - 40) * 60
    else if s.cpuTemp < 65 then 1100 + (s.cpuTemp - 45) * 85
    else if s.cpuTemp < 80 then 2800 + (s.cpuTemp - 65) * 120
    else 4600 + (s.cpuTemp - 80) * 50
  let gpuFanTarget : ℝ :=
    if s.gpuTemp < 40 then max 0 (600 + (s.gpuTemp - 35) * 80)
    else if s.gpuTemp < 60 then 1200 + (s.gpuTemp - 40) * 70
    else if s.gpuTemp < 75 then 2600 + (s.gpuTemp - 60) * 90
    else 3950 + (s.gpuTemp - 75) * 60
  let avgTemp := (s.cpuTemp + s.gpuTemp) / 2
  let caseFanTarget : ℝ :=
    if avgTemp < 45 then 400 + (avgTemp - 35) * 25
    else if avgTemp < 65 then 650 + (avgTemp - 45) * 40
    else 1450 + (avgTemp - 65) * 55
  let fanResponseRate : ℝ := 0.15
  let cpuFan1 := s.cpuFanRpm + (cpuFanTarget - s.cpuFanRpm) * fanResponseRate + (r.cpuFanJitter : ℝ)
  let gpuFan1 := s.gpuFanRpm + (gpuFanTarget - s.gpuFanRpm) * fanResponseRate + (r.gpuFanJitter : ℝ)
  let caseFan1 := s.caseFanRpm + (caseFanTarget - s.caseFanRpm) * fanResponseRate + (r.caseFanJitter : ℝ)
  { s with
      cpuFanRpm := max 0 (min 4800 cpuFan1)
      gpuFanRpm := max 0 (min 4200 gpuFan1)
      caseFanRpm := max 0 (min 2800 caseFan1) }

/-- One iteration of the main loop (simulate_pc_metrics.py lines 381-385):
`update_gaming_session`, then `simulate_temperature_changes`, then
`calculate_fan_speeds`. -/
noncomputable def tick (s : SimState) (r : TickRand) : SimState :=
  calculate_fan_speeds (simulate_temperature_changes (update_gaming_session s r) r) r

/-- States reachable from `initState` by iterating the tick under
arbitrary per-tick inputs. -/
inductive Reachable : SimState → Prop where
  | init : Reachable initState
  | step (s : SimState) (r : TickRand) : Reachable s → Reachable (tick s r)

/-- Python `int(x)`: truncation toward zero. -/
noncomputable def pyInt (x : ℝ) : ℤ := if 0 ≤ x then ⌊x⌋ else ⌈x⌉

/-- Python `round(x, 1)` as a rational (half-way behaviour of binary
floats is not modelled; no claim depends on exact half-way cases). -/
noncomputable def round1 (x : ℝ) : ℚ := (round (x * 10) : ℚ) / 10

/-- Python `round(x, 2)`, same caveat as `round1`. -/
noncomputable def round2 (x : ℝ) : ℚ := (round (x * 100) : ℚ) / 100

/-- The record returned by `PCComponentSimulator.get_sensor_data`
(simulate_pc_metrics.py lines 183-199). -/
structure SensorReading where
  timestamp : ℤ
  deviceId : String
  cpuTemp : ℚ
  gpuTemp : ℚ
  ssdTemp : ℚ
  motherboardTemp : ℚ
  cpuFanRpm : ℤ
  gpuFanRpm : ℤ
  caseFanRpm : ℤ
  gamingSession : Bool
  gamingIntensity : ℚ

/-- `PCComponentSimulator.get_sensor_data`; `tNow` is the `time.time()`
sample taken inside the call. -/
noncomputable def get_sensor_data (s : SimState) (tNow : ℝ) : SensorReading :=
  { timestamp := pyInt tNow
    deviceId := CLIENT_ID
    cpuTemp := round1 s.cpuTemp
    gpuTemp := round1 s.gpuTemp
    ssdTemp := round1 s.ssdTemp
    motherboardTemp := round1 s.motherboardTemp
    cpuFanRpm := pyInt s.cpuFanRpm
    gpuFanRpm := pyInt s.gpuFanRpm
    caseFanRpm := pyInt s.caseFanRpm
    gamingSession := s.gamingSession
    gamingIntensity := round2 s.gamingIntensity }

/-- State after `n` iterations of the main loop driven by the input
stream `env`. -/
noncomputable def simStates (env : ℕ → TickRand) : ℕ → SimState
  | 0 => initState
  | n + 1 => tick (simStates env n) (env n)

/-- The sequence of `SensorReading`s produced by `n` iterations of the
main loop: each iteration ticks the simulator and then calls
`get_sensor_data`. -/
noncomputable def simReadings (env : ℕ → TickRand) (n : ℕ) : List SensorReading :=
  (List.range n).map (fun k => get_sensor_data (simStates env (k + 1)) (env k).tStamp)

/-- Two per-tick inputs draw the same pseudo-random values (they may
still differ in the wall-clock samples `tTemp` / `tStamp`).  This is
what "a fixed random seed" fixes across two runs. -/
def sameRandom (a b : TickRand) : Prop :=
  a.rStart = b.rStart ∧ a.warmupJitter = b.warmupJitter ∧ a.activeJitter = b.activeJitter ∧
  a.cpuNoise = b.cpuNoise ∧ a.gpuNoise = b.gpuNoise ∧ a.ssdNoise = b.ssdNoise ∧
  a.mbNoise = b.mbNoise ∧ a.cpuFanJitter = b.cpuFanJitter ∧
  a.gpuFanJitter = b.gpuFanJitter ∧ a.caseFanJitter = b.caseFanJitter

/-- All-zero tick input (note `rStart = 0 < 0.02` starts a session). -/
def zeroRand : TickRand :=
  { rStart := 0, warmupJitter := 0, activeJitter := 0, cpuNoise := 0, gpuNoise := 0,
    ssdNoise := 0, mbNoise := 0, cpuFanJitter := 0, gpuFanJitter := 0, caseFanJitter := 0,
    tTemp := 0, tStamp := 0 }

/-- Input stream for run A of the determinism experiment: clock stuck at 0. -/
def envA : ℕ → TickRand := fun _ => zeroRand

/-- Input stream for run B: identical random draws, but `get_sensor_data`
samples the clock one hour later. -/
def envB : ℕ → TickRand := fun _ => { zeroRand with tStamp := 3600 }

/-- Tick input with the most negative warmup jitter `uniform(-0.1, 0.1)`
can produce. -/
def negJitterRand : TickRand := { zeroRand with warmupJitter := -0.1 }

/-- The reachable state one tick after `initState` when the Bernoulli
start trial fires (`rStart = 0 < 0.02`): a gaming session in its first
warmup tick. -/
noncomputable def warmState : SimState := tick initState zeroRand

/-- Claim-level bound predicate: every temperature within the bounds the
code clamps to (floor 25/25/20/20, ceiling `COMPONENT_MAX_TEMPS`). -/
def tempsInBounds (s : SimState) : Prop :=
  25 ≤ s.cpuTemp ∧ s.cpuTemp ≤ COMPONENT_MAX_TEMPS .cpu ∧
  25 ≤ s.gpuTemp ∧ s.gpuTemp ≤ COMPONENT_MAX_TEMPS .gpu ∧
  20 ≤ s.ssdTemp ∧ s.ssdTemp ≤ COMPONENT_MAX_TEMPS .ssd ∧
  20 ≤ s.motherboardTemp ∧ s.motherboardTemp ≤ COMPONENT_MAX_TEMPS .motherboard

/-- Claim-level bound predicate: every fan RPM within `[0, max_rpm]`
(4800 / 4200 / 2800). -/
def fansInBounds (s : SimState) : Prop :=
  0 ≤ s.cpuFanRpm ∧ s.cpuFanRpm ≤ 4800 ∧
  0 ≤ s.gpuFanRpm ∧ s.gpuFanRpm ≤ 4200 ∧
  0 ≤ s.caseFanRpm ∧ s.caseFanRpm ≤ 2800

/-- Python exceptions that the embedded functions can raise. -/
inductive PyErr where
  | keyError
deriving DecidableEq

/-- Python `max(l)` on a non-empty list of rationals; the empty case is
never reached by the embedded callers (Python would raise). -/
def pyMax (l : List ℚ) : ℚ :=
  match l with
  | [] => 0
  | x :: xs => xs.foldl max x

/-- Python `min(l)` on a non-empty list of rationals. -/
def pyMin (l : List ℚ) : ℚ :=
  match l with
  | [] => 0
  | x :: xs => xs.foldl min x

/-- Python `max(l)` on a non-empty list of integers. -/
def pyMaxZ (l : List ℤ) : ℤ :=
  match l with
  | [] => 0
  | x :: xs => xs.foldl max x

/-- Python `min(l)` on a non-empty list of integers. -/
def pyMinZ (l : List ℤ) : ℤ :=
  match l with
  | [] => 0
  | x :: xs => xs.foldl min x

/-- `ClaudeAIOptimizer._calculate_std` (claude_ai.py lines 306-312):
mean, population variance (divide by `len`), then `variance ** 0.5`. -/
noncomputable def calculate_std (values : List ℚ) : ℝ :=
  match values with
  | [] => 0
  | v :: vs =>
    let mean := (v :: vs).sum / ((v :: vs).length : ℚ)
    let variance := ((v :: vs).map (fun x => (x - mean) ^ 2)).sum / ((v :: vs).length : ℚ)
    Real.sqrt (variance : ℝ)

/-- Population standard deviation as the spec words it: square root of
(sum of squared deviations from the mean, divided by N — not N−1). -/
noncomputable def populationStd (values : List ℚ) : ℝ :=
  Real.sqrt
    (((values.map (fun x => (x - values.sum / (values.length : ℚ)) ^ 2)).sum /
        (values.length : ℚ) : ℚ) : ℝ)

/-- `ClaudeAIOptimizer._calculate_time_span` (claude_ai.py lines 314-321). -/
def calculate_time_span (sensor_data : List SensorReading) : ℚ :=
  if sensor_data.length < 2 then 0
  else
    let timestamps := sensor_data.map (·.timestamp)
    ((pyMaxZ timestamps - pyMinZ timestamps : ℤ) : ℚ) / 3600

/-- Per-channel `{avg, max, min, std}` entry of the analysis dict. -/
structure ChannelStats where
  avg : ℚ
  max : ℚ
  min : ℚ
  std : ℝ

/-- Per-fan `{avg, max, min}` entry of the analysis dict. -/
structure FanStats where
  avg : ℚ
  max : ℤ
  min : ℤ

/-- The `gaming` entry of the analysis dict. -/
structure GamingStats where
  sessions : ℕ
  avg_intensity : ℚ
  gaming_percentage : ℚ

/-- The analysis dict built by `analyze_temperature_data` for non-empty
input (claude_ai.py lines 53-102). -/
structure Analysis where
  cpu : ChannelStats
  gpu : ChannelStats
  ssd : ChannelStats
  motherboard : ChannelStats
  cpu_fan : FanStats
  gpu_fan : FanStats
  case_fan : FanStats
  gaming : GamingStats
  data_points : ℕ
  time_span_hours : ℚ

/-- `ClaudeAIOptimizer.analyze_temperature_data` (claude_ai.py lines
30-104).  The `Except` layer is Python's exception channel; `Option` is
the result: `none` is the empty dict `{}` returned for empty input,
`some` the populated analysis dict.  Readings are typed records, so the
`d.get(key, 0)` defaults for missing keys never fire. -/
noncomputable def analyze_temperature_data (sensor_data : List SensorReading) :
    Except PyErr (Option Analysis) :=
  match sensor_data with
  | [] => .ok none
  | r :: rest =>
    let data := r :: rest
    let n : ℚ := (data.length : ℚ)
    let cpu_temps := data.map (·.cpuTemp)
    let gpu_temps := data.map (·.gpuTemp)
    let ssd_temps := data.map (·.ssdTemp)
    let mb_temps := data.map (·.motherboardTemp)
    let cpu_fan_rpms := data.map (·.cpuFanRpm)
    let gpu_fan_rpms := data.map (·.gpuFanRpm)
    let case_fan_rpms := data.map (·.caseFanRpm)
    let gaming_sessions := data.countP (·.gamingSession)
    let gaming_intensity_avg := (data.map (·.gamingIntensity)).sum / n
    let cpuStats : ChannelStats :=
      { avg := cpu_temps.sum / n, max := pyMax cpu_temps, min := pyMin cpu_temps,
        std := calculate_std cpu_temps }
    let gpuStats : ChannelStats :=
      { avg := gpu_temps.sum / n, max := pyMax gpu_temps, min := pyMin gpu_temps,
        std := calculate_std gpu_temps }
    let ssdStats : ChannelStats :=
      { avg := ssd_temps.sum / n, max := pyMax ssd_temps, min := pyMin ssd_temps,
        std := calculate_std ssd_temps }
    let mbStats : ChannelStats :=
      { avg := mb_temps.sum / n, max := pyMax mb_temps, min := pyMin mb_temps,
        std := calculate_std mb_temps }
    let cpuFanStats : FanStats :=
      { avg := (cpu_fan_rpms.map (fun z => (z : ℚ))).sum / n,
        max := pyMaxZ cpu_fan_rpms, min := pyMinZ cpu_fan_rpms }
    let gpuFanStats : FanStats :=
      { avg := (gpu_fan_rpms.map (fun z => (z : ℚ))).sum / n,
        max := pyMaxZ gpu_fan_rpms, min := pyMinZ gpu_fan_rpms }
    let caseFanStats : FanStats :=
      { avg := (case_fan_rpms.map (fun z => (z : ℚ))).sum / n,
        max := pyMaxZ case_fan_rpms, min := pyMinZ case_fan_rpms }
    let gamingStats : GamingStats :=
      { sessions := gaming_sessions, avg_intensity := gaming_intensity_avg,
        gaming_percentage := ((gaming_sessions : ℚ) / n) * 100 }
    .ok (some
      { cpu := cpuStats, gpu := gpuStats, ssd := ssdStats, motherboard := mbStats,
        cpu_fan := cpuFanStats, gpu_fan := gpuFanStats, case_fan := caseFanStats,
        gaming := gamingStats, data_points := data.length,
        time_span_hours := calculate_time_span data })

/-- One preference's entry of the `base_curves` table: 5 RPM setpoints
per fan (claude_ai.py lines 259-275).  RPMs are Python ints. -/
structure FanCurves where
  cpu_fan : List ℤ
  gpu_fan : List ℤ
  case_fan : List ℤ
deriving DecidableEq

/-- `base_curves['best_temps']`. -/
def btCurves : FanCurves :=
  { cpu_fan := [800, 1400, 2200, 3600, 4500]
    gpu_fan := [0, 1200, 2400, 3900, 4200]
    case_fan := [600, 1000, 1600, 2400, 2800] }

/-- `base_curves['most_quiet']`. -/
def mqCurves : FanCurves :=
  { cpu_fan := [600, 1000, 1600, 2400, 3200]
    gpu_fan := [0, 800, 1800, 3000, 3400]
    case_fan := [400, 700, 1200, 1800, 2200] }

/-- `base_curves['balanced']`. -/
def balCurves : FanCurves :=
  { cpu_fan := [700, 1200, 1900, 3000, 3800]
    gpu_fan := [0, 1000, 2100, 3400, 3800]
    case_fan := [500, 850, 1400, 2100, 2500] }

/-- Indexing the `base_curves` dict: `none` is the `KeyError` case. -/
def base_curves (preference : String) : Option FanCurves :=
  if preference = "best_temps" then some btCurves
  else if preference = "most_quiet" then some mqCurves
  else if preference = "balanced" then some balCurves
  else none

/-- `analysis.get('cpu', \x7b\x7d).get('avg', 0)` over the
`Option Analysis` encoding of the analysis dict. -/
def cpuAvg (analysis : Option Analysis) : ℚ :=
  match analysis with
  | none => 0
  | some a => a.cpu.avg

/-- `analysis.get('gpu', \x7b\x7d).get('avg', 0)`. -/
def gpuAvg (analysis : Option Analysis) : ℚ :=
  match analysis with
  | none => 0
  | some a => a.gpu.avg

/-- `analysis.get('gaming', \x7b\x7d).get('avg_intensity', 0)`. -/
def gamingAvgIntensity (analysis : Option Analysis) : ℚ :=
  match analysis with
  | none => 0
  | some a => a.gaming.avg_intensity

/-- The recommendation dict assembled by the recommender.  The purely
textual `recommendations` strings and the wall-clock `timestamp` field
carry no claim-relevant content and are omitted from the embedding. -/
structure Recommendation where
  preference : String
  fan_curves : FanCurves
  analysis : Option Analysis
  ai_generated : Bool

/-- `ClaudeAIOptimizer._generate_simulated_curves` (claude_ai.py lines
254-304): base table lookup (a `KeyError` for an unknown preference),
then the three threshold bumps. -/
def generate_simulated_curves (analysis : Option Analysis) (preference : String) :
    Except PyErr Recommendation :=
  match base_curves preference with
  | none => .error .keyError
  | some base =>
    let curves_cpu := if 70 < cpuAvg analysis
      then base.cpu_fan.map (fun rpm => rpm + 200) else base.cpu_fan
    let curves_gpu := if 75 < gpuAvg analysis
      then base.gpu_fan.map (fun rpm => rpm + 200) else base.gpu_fan
    let curves_case := if (0.7 : ℚ) < gamingAvgIntensity analysis
      then base.case_fan.map (fun rpm => rpm + 150) else base.case_fan
    .ok { preference := preference
          fan_curves := { cpu_fan := curves_cpu, gpu_fan := curves_gpu, case_fan := curves_case }
          analysis := analysis
          ai_generated := false }

/-- The structured data `_parse_claude_response` can pull out of a
response body: the `fan_curves` key of the extracted JSON object
(`claude_data.get('fan_curves', \x7b\x7d)`). -/
structure ClaudeData where
  fan_curves : Option FanCurves

/-- Outcome of the remote call in `_generate_claude_curves`:
`exn` models any raised exception (transport error, timeout, ...);
`resp status parsed` models a completed HTTP response, where `parsed`
is the result of the brace-slicing plus `json.loads` step of
`_parse_claude_response` (`none` when no `\x7b...\x7d` slice exists or
`json.loads` raises — both caught and turned into the local fallback). -/
inductive RemoteOutcome where
  | exn : RemoteOutcome
  | resp (statusCode : ℤ) (parsed : Option ClaudeData) : RemoteOutcome

/-- `ClaudeAIOptimizer._parse_claude_response` (claude_ai.py lines
219-252), over the abstracted extraction result. -/
def parse_claude_response (parsed : Option ClaudeData) (analysis : Option Analysis)
    (preference : String) : Except PyErr Recommendation :=
  match parsed with
  | some claude_data =>
    .ok { preference := preference
          fan_curves := claude_data.fan_curves.getD { cpu_fan := [], gpu_fan := [], case_fan := [] }
          analysis := analysis
          ai_generated := true }
  | none => generate_simulated_curves analysis preference

/-- `ClaudeAIOptimizer._generate_claude_curves` (claude_ai.py lines
115-155).  A `KeyError` raised by the fallback inside the `except`
handler propagates to the caller, which the `Except` channel captures. -/
def generate_claude_curves (remote : RemoteOutcome) (analysis : Option Analysis)
    (preference : String) : Except PyErr Recommendation :=
  match remote with
  | .exn => generate_simulated_curves analysis preference
  | .resp statusCode parsed =>
    if statusCode = 200 then parse_claude_response parsed analysis preference
    else generate_simulated_curves analysis preference

/-- `ClaudeAIOptimizer.generate_fan_curves` (claude_ai.py lines 106-113). -/
def generate_fan_curves (use_simulation : Bool) (remote : RemoteOutcome)
    (analysis : Option Analysis) (preference : String) : Except PyErr Recommendation :=
  if use_simulation then generate_simulated_curves analysis preference
  else generate_claude_curves remote analysis preference

/-- The remote advisory path failed: exception, non-200 status, or no
JSON object extractable from the body. -/
def RemoteFails : RemoteOutcome → Prop
  | .exn => True
  | .resp statusCode parsed => statusCode ≠ 200 ∨ parsed = none

/-- JSON values, as produced by Python's `json.loads`. -/
inductive JValue where
  | null : JValue
  | bool (b : Bool) : JValue
  | num (q : ℚ) : JValue
  | str (s : List Char) : JValue
  | arr (xs : List JValue) : JValue
  | obj (fields : List (List Char × JValue)) : JValue

/-- Whitespace characters stripped by Python's `str.strip()` and skipped
by the JSON grammar. -/
def isPySpace (c : Char) : Bool :=
  c = ' ' || c = '\n' || c = '\t' || c = '\r' || c = '\x0b' || c = '\x0c'

/-- Python `str.strip()`. -/
def pyStrip (cs : List Char) : List Char :=
  ((cs.dropWhile isPySpace).reverse.dropWhile isPySpace).reverse

/-- Python `str.endswith(c)` for a single character. -/
def endsWithChar (cs : List Char) (c : Char) : Bool :=
  match cs.getLast? with
  | some d => d = c
  | none => false

/-- Python `str.startswith(c)` for a single character. -/
def startsWithChar (cs : List Char) (c : Char) : Bool :=
  match cs with
  | d :: _ => d = c
  | [] => false

/-- Drop leading JSON whitespace. -/
def skipWs (cs : List Char) : List Char := cs.dropWhile isPySpace

/-- Digits of a decimal literal, most significant first, as a natural. -/
def digitsToNat (ds : List Char) : ℕ :=
  ds.foldl (fun acc c => acc * 10 + (c.toNat - '0'.toNat)) 0

/-- Parse a JSON string body after the opening quote (escape sequences
are not modelled; the log writer emits none). -/
def parseStringBody (cs : List Char) : Option (List Char × List Char) :=
  let body := cs.takeWhile (fun c => ¬ (c = '"' ∨ c = '\\'))
  let rest := cs.drop body.length
  match rest with
  | '"' :: rest' => some (body, rest')
  | _ => none

/-- Parse a JSON number (optional minus, integer part, optional
fractional part) at the head of the input. -/
def parseNumber (cs : List Char) : Option (ℚ × List Char) :=
  let neg := startsWithChar cs '-'
  let cs1 := if neg then cs.drop 1 else cs
  let intDigits := cs1.takeWhile (·.isDigit)
  if intDigits = [] then none
  else
    let cs2 := cs1.drop intDigits.length
    let intPart : ℚ := (digitsToNat intDigits : ℚ)
    let withFrac : ℚ × List Char :=
      match cs2 with
      | '.' :: cs3 =>
        let fracDigits := cs3.takeWhile (·.isDigit)
        if fracDigits = [] then (intPart, cs2)
        else (intPart + (digitsToNat fracDigits : ℚ) / (10 : ℚ) ^ fracDigits.length,
              cs3.drop fracDigits.length)
      | _ => (intPart, cs2)
    some (if neg then -withFrac.1 else withFrac.1, withFrac.2)

mutual

/-- Recursive-descent JSON value parser with a fuel bound (models
`json.loads` on the fragment of JSON the sensor log uses). -/
def parseJValue : ℕ → List Char → Option (JValue × List Char)
  | 0, _ => none
  | fuel + 1, cs =>
    match skipWs cs with
    | [] => none
    | c :: rest =>
      if c = 'n' then
        match rest with
        | 'u' :: 'l' :: 'l' :: rest' => some (.null, rest')
        | _ => none
      else if c = 't' then
        match rest with
        | 'r' :: 'u' :: 'e' :: rest' => some (.bool true, rest')
        | _ => none
      else if c = 'f' then
        match rest with
        | 'a' :: 'l' :: 's' :: 'e' :: rest' => some (.bool false, rest')
        | _ => none
      else if c = '"' then
        match parseStringBody rest with
        | some (s, rest') => some (.str s, rest')
        | none => none
      else if c = '[' then
        match skipWs rest with
        | ']' :: rest' => some (.arr [], rest')
        | _ =>
          match parseJArrayItems fuel rest with
          | some (xs, rest') => some (.arr xs, rest')
          | none => none
      else if c = '{' then
        match skipWs rest with
        | '}' :: rest' => some (.obj [], rest')
        | _ =>
          match parseJObjItems fuel rest with
          | some (fields, rest') => some (.obj fields, rest')
          | none => none
      else parseNumber (c :: rest) |>.map (fun p => (.num p.1, p.2))

/-- Comma-separated array elements up to the closing bracket. -/
def parseJArrayItems : ℕ → List Char → Option (List JValue × List Char)
  | 0, _ => none
  | fuel + 1, cs =>
    match parseJValue fuel cs with
    | none => none
    | some (v, rest) =>
      match skipWs rest with
      | ',' :: rest' =>
        match parseJArrayItems fuel rest' with
        | some (vs, rest'') => some (v :: vs, rest'')
        | none => none
      | ']' :: rest' => some ([v], rest')
      | _ => none

/-- Comma-separated `"key": value` members up to the closing brace. -/
def parseJObjItems : ℕ → List Char → Option (List (List Char × JValue) × List Char)
  | 0, _ => none
  | fuel + 1, cs =>
    match skipWs cs with
    | '"' :: rest =>
      match parseStringBody rest with
      | none => none
      | some (key, rest1) =>
        match skipWs rest1 with
        | ':' :: rest2 =>
          match parseJValue fuel rest2 with
          | none => none
          | some (v, rest3) =>
            match skipWs rest3 with
            | ',' :: rest4 =>
              match parseJObjItems fuel rest4 with
              | some (fields, rest5) => some ((key, v) :: fields, rest5)
              | none => none
            | '}' :: rest4 => some ([(key, v)], rest4)
            | _ => none
        | _ => none
    | _ => none

end

/-- Python `json.loads`: parse one value, then require only whitespace
to remain.  Fuel `2 * length + 4` bounds the recursion depth, which the
grammar keeps below `2 *` the number of input characters. -/
def jsonLoads (cs : List Char) : Option JValue :=
  match parseJValue (2 * cs.length + 4) cs with
  | some (v, rest) => if skipWs rest = [] then some v else none
  | none => none

/-- One line of `load_sensor_data_fallback`'s loop (app.py lines
103-116): accept `\x7b...\x7d` or `\x7b...\x7d,` lines that parse. -/
def fallbackLine (line : List Char) : Option JValue :=
  let l := pyStrip line
  if startsWithChar l '{' && endsWithChar l '}' then jsonLoads l
  else if startsWithChar l '{' && endsWithChar l ',' then jsonLoads l.dropLast
  else none

/-- Python `str.split('\n')`. -/
def splitLines (cs : List Char) : List (List Char) :=
  cs.foldr
    (fun c acc =>
      if c = '\n' then [] :: acc
      else
        match acc with
        | h :: t => (c :: h) :: t
        | [] => [[c]])
    [[]]

/-- `load_sensor_data_fallback` (app.py lines 93-122). -/
def load_sensor_data_fallback (content : List Char) : List JValue :=
  (splitLines content).filterMap fallbackLine

/-- `load_sensor_data` (app.py lines 45-91) at the level of the file's
content: strip, repair a truncated tail (missing `]`, trailing comma),
parse, cap at the most recent 1000 records; a parse failure falls back
to the line-by-line loader.  A non-array JSON document is bound as-is
(the log writer never produces one). -/
def load_sensor_data (raw : List Char) : JValue :=
  let content := pyStrip raw
  let content :=
    if content ≠ [] ∧ ¬ endsWithChar content ']' then
      (if endsWithChar content ',' then content.dropLast else content) ++ ['\n', ']']
    else content
  if content = [] then .arr []
  else
    match jsonLoads content with
    | some (.arr xs) =>
      .arr (if xs.length > 1000 then xs.drop (xs.length - 1000) else xs)
    | some v => v
    | none => .arr (load_sensor_data_fallback raw)

/-- The truncated log content of the C8 scenario:
`[\x7b"a":1\x7d,\x7b"b":2\x7d,` with no closing bracket. -/
def c8Input : List Char :=
  ['[', '{', '"', 'a', '"', ':', '1', '}', ',', '{', '"', 'b', '"', ':', '2', '}', ',']

/-- The sample reading of claude_ai.py's `__main__` block. -/
def sampleReading : SensorReading :=
  { timestamp := 1750263292
    deviceId := CLIENT_ID
    cpuTemp := 45.2
    gpuTemp := 42.1
    ssdTemp := 38.5
    motherboardTemp := 35.2
    cpuFanRpm := 1450
    gpuFanRpm := 1200
    caseFanRpm := 900
    gamingSession := false
    gamingIntensity := 0 }

/-- An analysis summary of the C7 scenario: 100 readings with
`cpu_temp` fixed at 80 and `gaming_session` true throughout. -/
def hotAnalysis : Analysis :=
  { cpu := { avg := 80, max := 80, min := 80, std := 0 }
    gpu := { avg := 80, max := 80, min := 80, std := 0 }
    ssd := { avg := 38, max := 38, min := 38, std := 0 }
    motherboard := { avg := 35, max := 35, min := 35, std := 0 }
    cpu_fan := { avg := 1450, max := 1450, min := 1450 }
    gpu_fan := { avg := 1200, max := 1200, min := 1200 }
    case_fan := { avg := 900, max := 900, min := 900 }
    gaming := { sessions := 100, avg_intensity := 1, gaming_percentage := 100 }
    data_points := 100
    time_span_hours := 0 }

/-! Helper lemmas. -/

theorem clamp_left_le (a b x : ℝ) : a ≤ max a (min b x) := le_max_left a (min b x)

theorem clamp_le_right (a b x : ℝ) (h : a ≤ b) : max a (min b x) ≤ b :=
  max_le h (min_le_left b x)

theorem base_curves_elim (preference : String) (b : FanCurves)
    (hb : base_curves preference = some b) :
    b = btCurves ∨ b = mqCurves ∨ b = balCurves := by
  unfold base_curves at hb
  split_ifs at hb <;> simp_all

/-- Bumping a curve by a non-negative offset keeps the length and
non-negativity of its setpoints. -/
theorem ite_bump_ok {c : Prop} [Decidable c] (l : List ℤ) (k : ℤ) (hk : 0 ≤ k)
    (h5 : l.length = 5) (hpos : ∀ x ∈ l, 0 ≤ x) :
    (if c then l.map (fun rpm => rpm + k) else l).length = 5 ∧
      ∀ x ∈ (if c then l.map (fun rpm => rpm + k) else l), 0 ≤ x := by
  split
  · refine ⟨by simpa using h5, ?_⟩
    intro x hx
    rcases List.mem_map.mp hx with ⟨y, hy, rfl⟩
    have := hpos y hy
    omega
  · exact ⟨h5, hpos⟩

theorem forall₂_map_bump (l : List ℤ) (k : ℤ) :
    List.Forall₂ (fun x y => y + k ≤ x) (l.map (fun rpm => rpm + k)) l := by
  induction l with
  | nil => exact .nil
  | cons a t ih => exact .cons (le_refl (a + k)) ih

/-- For a valid preference the local policy succeeds and returns 5
non-negative setpoints per fan. -/
theorem generate_simulated_curves_ok (analysis : Option Analysis) (preference : String)
    (b : FanCurves) (hb : base_curves preference = some b) :
    ∃ rec, generate_simulated_curves analysis preference = Except.ok rec ∧
      rec.fan_curves.cpu_fan.length = 5 ∧ rec.fan_curves.gpu_fan.length = 5 ∧
      rec.fan_curves.case_fan.length = 5 ∧
      (∀ x ∈ rec.fan_curves.cpu_fan, 0 ≤ x) ∧ (∀ x ∈ rec.fan_curves.gpu_fan, 0 ≤ x) ∧
      (∀ x ∈ rec.fan_curves.case_fan, 0 ≤ x) := by
  simp only [generate_simulated_curves, hb]
  refine ⟨_, rfl, ?_, ?_, ?_, ?_, ?_, ?_⟩ <;>
    rcases base_curves_elim preference b hb with rfl | rfl | rfl <;>
    first
      | exact (ite_bump_ok _ _ (by norm_num) (by decide) (by decide)).1
      | exact (ite_bump_ok _ _ (by norm_num) (by decide) (by decide)).2

theorem calculate_std_singleton (x : ℚ) : calculate_std [x] = 0 := by
  simp [calculate_std]

/-- The temperature and fan updates do not touch the gaming-session
fields, so the tick's gaming fields are those of the state-machine step. -/
theorem tick_gamingSession (s : SimState) (r : TickRand) :
    (tick s r).gamingSession = (update_gaming_session s r).gamingSession := rfl

theorem tick_gamingIntensity (s : SimState) (r : TickRand) :
    (tick s r).gamingIntensity = (update_gaming_session s r).gamingIntensity := rfl

theorem tick_sessionTime (s : SimState) (r : TickRand) :
    (tick s r).sessionTime = (update_gaming_session s r).sessionTime := rfl

/-- The IDLE → WARMUP transition of `update_gaming_session`. -/
theorem update_session_start (s : SimState) (r : TickRand)
    (h1 : s.gamingSession = false) (h2 : r.rStart < GAMING_SESSION_START_PROBABILITY) :
    update_gaming_session s r =
      { s with gamingSession := true, sessionTime := 0, coolingPhase := false,
               gamingIntensity := 0.1 } := by
  simp only [update_gaming_session, if_pos h1, if_pos h2]

/-- One step of `update_gaming_session` preserves "inactive implies
intensity 0": the only transition into the inactive state sets the
intensity to `max 0 (i − rate)` under the guard that it is `≤ 0`. -/
theorem update_idle_step (s : SimState) (r : TickRand)
    (ih : s.gamingSession = false → s.gamingIntensity = 0)
    (h : (update_gaming_session s r).gamingSession = false) :
    (update_gaming_session s r).gamingIntensity = 0 := by
  by_cases h1 : s.gamingSession = false
  · by_cases h2 : r.rStart < GAMING_SESSION_START_PROBABILITY
    · rw [update_session_start s r h1 h2] at h
      simp at h
    · simp only [update_gaming_session, if_pos h1, if_neg h2] at h ⊢
      exact ih h
  · by_cases h3 : s.coolingPhase = false
    · by_cases h4 : s.sessionTime + 1 ≤ GAMING_WARMUP_TIME
      · simp only [update_gaming_session, if_neg h1, if_pos h3, if_pos h4] at h
        exact absurd h h1
      · by_cases h5 : s.sessionTime + 1 ≤ GAMING_WARMUP_TIME + GAMING_DURATION
        · simp only [update_gaming_session, if_neg h1, if_pos h3, if_neg h4, if_pos h5] at h
          exact absurd h h1
        · simp only [update_gaming_session, if_neg h1, if_pos h3, if_neg h4, if_neg h5] at h
          exact absurd h h1
    · by_cases h6 : max 0 (s.gamingIntensity - GAMING_COOLDOWN_RATE) ≤ 0
      · simp only [update_gaming_session, if_neg h1, if_neg h3, if_pos h6]
        exact le_antisymm h6 (le_max_left _ _)
      · simp only [update_gaming_session, if_neg h1, if_neg h3, if_neg h6] at h
        exact absurd h h1

/-- In every reachable state, an inactive session has intensity 0. -/
theorem idle_intensity_zero (s : SimState) (hs : Reachable s) :
    s.gamingSession = false → s.gamingIntensity = 0 := by
  induction hs with
  | init => intro _; norm_num [initState]
  | step s r _ ih =>
    intro hfalse
    exact update_idle_step s r ih hfalse

theorem zeroRand_starts : zeroRand.rStart < GAMING_SESSION_START_PROBABILITY := by
  norm_num [zeroRand, GAMING_SESSION_START_PROBABILITY]

/-- Gaming fields of the state one tick after `initState` with the
start trial firing. -/
theorem warmState_gaming :
    warmState.gamingSession = true ∧ warmState.sessionTime = 0 ∧
      warmState.coolingPhase = false ∧ warmState.gamingIntensity = 0.1 := by
  have h : update_gaming_session initState zeroRand =
      { initState with gamingSession := true, sessionTime := 0, coolingPhase := false,
                       gamingIntensity := 0.1 } :=
    update_session_start initState zeroRand rfl zeroRand_starts
  refine ⟨?_, ?_, ?_, ?_⟩
  · show (update_gaming_session initState zeroRand).gamingSession = true
    rw [h]
  · show (update_gaming_session initState zeroRand).sessionTime = 0
    rw [h]
  · show (update_gaming_session initState zeroRand).coolingPhase = false
    rw [h]
  · show (update_gaming_session initState zeroRand).gamingIntensity = 0.1
    rw [h]

/-- The WARMUP branch of `update_gaming_session`: the new intensity is
`min 0.9 (ramp + jitter)` — an upper clamp only. -/
theorem warmup_intensity_formula (s : SimState) (r : TickRand)
    (h1 : s.gamingSession = true) (h2 : s.coolingPhase = false)
    (h3 : s.sessionTime + 1 ≤ GAMING_WARMUP_TIME) :
    (update_gaming_session s r).gamingIntensity =
      min 0.9 (((s.sessionTime + 1 : ℕ) : ℝ) / (GAMING_WARMUP_TIME : ℝ) * 0.7 +
        r.warmupJitter) := by
  have hs1 : ¬ s.gamingSession = false := by simp [h1]
  simp only [update_gaming_session, if_neg hs1, if_pos h2, if_pos h3]

/-! Claim theorems. -/

/-- C8: `load_sensor_data`, given the truncated log content
`[\x7b"a":1\x7d,\x7b"b":2\x7d,` (no closing bracket), repairs the tail
(drops the trailing comma, appends a closing bracket) and parses exactly
2 records instead of failing. -/
theorem c8_truncated_log_parses :
    load_sensor_data c8Input =
      JValue.arr [JValue.obj [(['a'], JValue.num 1)], JValue.obj [(['b'], JValue.num 2)]] := by
  rfl

/-- C3 counterexample: on zero readings `analyze_temperature_data` does
not raise any error — it returns the empty dict (`none`) through the
normal return path, refuting "fails with a raised EmptyInputError". -/
theorem c3_counterexample :
    analyze_temperature_data [] = Except.ok none ∧
      ∀ e : PyErr, analyze_temperature_data [] ≠ Except.error e := by
  refine ⟨rfl, ?_⟩
  intro e h
  simp [analyze_temperature_data] at h

/-- C3 amended: given zero readings the aggregation returns the empty
dict `\x7b\x7d` normally (no exception is raised); a caller detects
"insufficient data" from the empty result, and every non-empty input
yields a populated summary. -/
theorem c3_empty_returns_empty_dict (sensor_data : List SensorReading) :
    (sensor_data = [] → analyze_temperature_data sensor_data = Except.ok none) ∧
      (sensor_data ≠ [] →
        ∃ a, analyze_temperature_data sensor_data = Except.ok (some a)) := by
  constructor
  · rintro rfl
    rfl
  · intro h
    match sensor_data with
    | [] => exact absurd rfl h
    | r :: rest => exact ⟨_, rfl⟩

theorem c3_empty_returns_empty_dict_witness :
    analyze_temperature_data [] = Except.ok none ∧
      ∃ a, analyze_temperature_data [sampleReading] = Except.ok (some a) :=
  ⟨(c3_empty_returns_empty_dict []).1 rfl,
   (c3_empty_returns_empty_dict [sampleReading]).2 (by simp)⟩

/-- C10: for a preference outside \x7bbalanced, best_temps, most_quiet\x7d the
local policy raises `KeyError` on the base-curve table lookup, and since
the remote path's exception handler calls it as the fallback, every
failing remote outcome makes `generate_claude_curves` raise the
`KeyError` to its caller as well. -/
theorem c10_unknown_preference_keyerror (analysis : Option Analysis) (preference : String)
    (remote : RemoteOutcome)
    (hp : ¬ (preference = "balanced" ∨ preference = "best_temps" ∨
      preference = "most_quiet")) :
    generate_simulated_curves analysis preference = Except.error PyErr.keyError ∧
      (RemoteFails remote →
        generate_claude_curves remote analysis preference = Except.error PyErr.keyError) := by
  push_neg at hp
  obtain ⟨h1, h2, h3⟩ := hp
  have hnone : base_curves preference = none := by
    unfold base_curves
    split_ifs <;> simp_all
  have hsim : generate_simulated_curves analysis preference = Except.error PyErr.keyError := by
    simp only [generate_simulated_curves, hnone]
  refine ⟨hsim, ?_⟩
  intro hr
  cases remote with
  | exn => exact hsim
  | resp statusCode parsed =>
    rcases hr with hst | hp'
    · simp only [generate_claude_curves, if_neg hst]
      exact hsim
    · subst hp'
      by_cases hst : statusCode = 200
      · simp only [generate_claude_curves, if_pos hst, parse_claude_response]
        exact hsim
      · simp only [generate_claude_curves, if_neg hst]
        exact hsim

theorem c10_unknown_preference_keyerror_witness :
    generate_simulated_curves none "quiet" = Except.error PyErr.keyError ∧
      generate_claude_curves RemoteOutcome.exn none "quiet" = Except.error PyErr.keyError := by
  have h := c10_unknown_preference_keyerror none "quiet" RemoteOutcome.exn (by decide)
  exact ⟨h.1, h.2 trivial⟩

/-- C6: for every summary and every preference in \x7bbalanced,
best_temps, most_quiet\x7d, any remote failure (exception, non-200
status, or no JSON object extractable from the response) makes
`generate_claude_curves` return exactly the local-policy result, so the
caller receives a recommendation with 5 non-negative setpoints per fan
instead of an error. -/
theorem c6_remote_failure_falls_back_local (analysis : Option Analysis) (preference : String)
    (remote : RemoteOutcome)
    (hp : preference = "balanced" ∨ preference = "best_temps" ∨ preference = "most_quiet")
    (hr : RemoteFails remote) :
    generate_claude_curves remote analysis preference =
        generate_simulated_curves analysis preference ∧
      ∃ rec, generate_claude_curves remote analysis preference = Except.ok rec ∧
        rec.fan_curves.cpu_fan.length = 5 ∧ rec.fan_curves.gpu_fan.length = 5 ∧
        rec.fan_curves.case_fan.length = 5 ∧
        (∀ x ∈ rec.fan_curves.cpu_fan, 0 ≤ x) ∧ (∀ x ∈ rec.fan_curves.gpu_fan, 0 ≤ x) ∧
        (∀ x ∈ rec.fan_curves.case_fan, 0 ≤ x) := by
  have hfall : generate_claude_curves remote analysis preference =
      generate_simulated_curves analysis preference := by
    cases remote with
    | exn => rfl
    | resp statusCode parsed =>
      rcases hr with hst | hnone
      · simp only [generate_claude_curves, if_neg hst]
      · subst hnone
        by_cases hst : statusCode = 200
        · simp only [generate_claude_curves, if_pos hst, parse_claude_response]
        · simp only [generate_claude_curves, if_neg hst]
  have hb : ∃ b, base_curves preference = some b := by
    rcases hp with rfl | rfl | rfl <;> exact ⟨_, rfl⟩
  obtain ⟨b, hb⟩ := hb
  refine ⟨hfall, ?_⟩
  rw [hfall]
  exact generate_simulated_curves_ok analysis preference b hb

theorem c6_remote_failure_falls_back_local_witness :
    generate_claude_curves RemoteOutcome.exn none "balanced" =
        generate_simulated_curves none "balanced" ∧
      ∃ rec, generate_claude_curves RemoteOutcome.exn none "balanced" = Except.ok rec ∧
        rec.fan_curves.cpu_fan.length = 5 ∧ rec.fan_curves.gpu_fan.length = 5 ∧
        rec.fan_curves.case_fan.length = 5 ∧
        (∀ x ∈ rec.fan_curves.cpu_fan, 0 ≤ x) ∧ (∀ x ∈ rec.fan_curves.gpu_fan, 0 ≤ x) ∧
        (∀ x ∈ rec.fan_curves.case_fan, 0 ≤ x) :=
  c6_remote_failure_falls_back_local none "balanced" RemoteOutcome.exn (Or.inl rfl) trivial

/-- C7: when the summary's average CPU temperature exceeds 70 the local
policy returns a CPU curve pointwise ≥ the chosen preference's base CPU
curve plus the fixed 200-RPM offset; likewise the GPU curve above
average 75 and the case-fan curve (offset 150) above average gaming
intensity 0.7. -/
theorem c7_high_temp_bumps_curves (a : Analysis) (preference : String) (b : FanCurves)
    (hb : base_curves preference = some b) :
    ∃ rec, generate_simulated_curves (some a) preference = Except.ok rec ∧
      (70 < a.cpu.avg →
        List.Forall₂ (fun x y => y + 200 ≤ x) rec.fan_curves.cpu_fan b.cpu_fan) ∧
      (75 < a.gpu.avg →
        List.Forall₂ (fun x y => y + 200 ≤ x) rec.fan_curves.gpu_fan b.gpu_fan) ∧
      ((0.7 : ℚ) < a.gaming.avg_intensity →
        List.Forall₂ (fun x y => y + 150 ≤ x) rec.fan_curves.case_fan b.case_fan) := by
  simp only [generate_simulated_curves, hb]
  refine ⟨_, rfl, ?_, ?_, ?_⟩ <;> intro h <;> simp only [cpuAvg, gpuAvg, gamingAvgIntensity]
  · rw [if_pos h]
    exact forall₂_map_bump b.cpu_fan 200
  · rw [if_pos h]
    exact forall₂_map_bump b.gpu_fan 200
  · rw [if_pos h]
    exact forall₂_map_bump b.case_fan 150

theorem c7_high_temp_bumps_curves_witness :
    ∃ rec, generate_simulated_curves (some hotAnalysis) "balanced" = Except.ok rec ∧
      List.Forall₂ (fun x y => y + 200 ≤ x) rec.fan_curves.cpu_fan balCurves.cpu_fan := by
  obtain ⟨rec, h1, h2, -, -⟩ := c7_high_temp_bumps_curves hotAnalysis "balanced" balCurves rfl
  exact ⟨rec, h1, h2 (by norm_num [hotAnalysis])⟩

/-- C9: for every non-empty reading list the aggregator's per-channel
`std` is the population standard deviation (variance divided by N, not
N−1, then square-rooted); in particular a single-reading input yields
`std = 0` on every temperature channel. -/
theorem c9_std_is_population_std (sensor_data : List SensorReading) (h : sensor_data ≠ []) :
    ∃ a, analyze_temperature_data sensor_data = Except.ok (some a) ∧
      a.cpu.std = populationStd (sensor_data.map (·.cpuTemp)) ∧
      a.gpu.std = populationStd (sensor_data.map (·.gpuTemp)) ∧
      a.ssd.std = populationStd (sensor_data.map (·.ssdTemp)) ∧
      a.motherboard.std = populationStd (sensor_data.map (·.motherboardTemp)) ∧
      (∀ r, sensor_data = [r] →
        a.cpu.std = 0 ∧ a.gpu.std = 0 ∧ a.ssd.std = 0 ∧ a.motherboard.std = 0) := by
  cases sensor_data with
  | nil => exact absurd rfl h
  | cons r rest =>
    refine ⟨_, rfl, rfl, rfl, rfl, rfl, ?_⟩
    rintro r' hd
    have hd' : r = r' ∧ rest = [] := by simpa using hd
    obtain ⟨rfl, rfl⟩ := hd'
    exact ⟨calculate_std_singleton _, calculate_std_singleton _,
      calculate_std_singleton _, calculate_std_singleton _⟩

theorem c9_std_is_population_std_witness :
    ([sampleReading] : List SensorReading) ≠ [] ∧
      ∃ a, analyze_temperature_data [sampleReading] = Except.ok (some a) ∧
        a.cpu.std = 0 ∧ a.gpu.std = 0 := by
  obtain ⟨a, h1, -, -, -, -, hs⟩ := c9_std_is_population_std [sampleReading] (by simp)
  obtain ⟨h2, h3, -, -⟩ := hs sampleReading rfl
  exact ⟨by simp, a, h1, h2, h3⟩

/-- C1: from every reachable simulation state, one tick
(`update_gaming_session`, then `simulate_temperature_changes`, then
`calculate_fan_speeds`) leaves every temperature within its clamp bounds
(floors 25/25/20/20, ceilings `COMPONENT_MAX_TEMPS`) and every fan RPM
within `[0, max_rpm]` (4800/4200/2800), for arbitrary noise and clock
inputs. -/
theorem c1_tick_preserves_bounds (s : SimState) (r : TickRand) (hs : Reachable s) :
    tempsInBounds (tick s r) ∧ fansInBounds (tick s r) := by
  constructor
  · unfold tempsInBounds
    refine ⟨?_, ?_, ?_, ?_, ?_, ?_, ?_, ?_⟩ <;>
      simp only [tick, calculate_fan_speeds, simulate_temperature_changes] <;>
      first
        | exact le_trans (by norm_num) (le_max_left _ _)
        | exact clamp_le_right _ _ _ (by norm_num [COMPONENT_MAX_TEMPS])
  · unfold fansInBounds
    refine ⟨?_, ?_, ?_, ?_, ?_, ?_⟩ <;>
      simp only [tick, calculate_fan_speeds] <;>
      first
        | exact le_trans (by norm_num) (le_max_left _ _)
        | exact clamp_le_right _ _ _ (by norm_num)

theorem c1_tick_preserves_bounds_witness :
    tempsInBounds (tick initState zeroRand) ∧ fansInBounds (tick initState zeroRand) :=
  c1_tick_preserves_bounds initState zeroRand Reachable.init

/-- C2 counterexample: two runs whose per-tick random draws coincide at
every tick (a fixed random seed) but whose wall-clock samples differ
produce different `SensorReading` sequences — already after one tick the
`timestamp` fields disagree.  This refutes seed-only determinism. -/
theorem c2_counterexample :
    (∀ k, sameRandom (envA k) (envB k)) ∧ simReadings envA 1 ≠ simReadings envB 1 := by
  constructor
  · intro k
    exact ⟨rfl, rfl, rfl, rfl, rfl, rfl, rfl, rfl, rfl, rfl⟩
  · intro h
    have h1 : simReadings envA 1 = [get_sensor_data (simStates envA 1) (envA 0).tStamp] := by
      simp [simReadings, List.range_succ]
    have h2 : simReadings envB 1 = [get_sensor_data (simStates envB 1) (envB 0).tStamp] := by
      simp [simReadings, List.range_succ]
    rw [h1, h2] at h
    have h4 : get_sensor_data (simStates envA 1) (envA 0).tStamp =
        get_sensor_data (simStates envB 1) (envB 0).tStamp := by
      simpa using h
    have h5 := congrArg SensorReading.timestamp h4
    simp only [get_sensor_data] at h5
    have e0 : pyInt (envA 0).tStamp = 0 := by norm_num [pyInt, envA, zeroRand]
    have e36 : pyInt (envB 0).tStamp = 3600 := by norm_num [pyInt, envB, zeroRand]
    rw [e0, e36] at h5
    norm_num at h5

/-- C2 amended: a run is a deterministic function of its per-tick input
stream — two runs with the same random draws AND the same wall-clock
samples at every tick produce identical `SensorReading` sequences; the
seed alone does not determine the sequence because the tick reads the
wall clock (ambient sinusoid and `timestamp`). -/
theorem c2_deterministic_given_seed_and_clock (e1 e2 : ℕ → TickRand) (n : ℕ)
    (h : ∀ k, e1 k = e2 k) : simReadings e1 n = simReadings e2 n := by
  have he : e1 = e2 := funext h
  rw [he]

theorem c2_deterministic_given_seed_and_clock_witness :
    simReadings envA 3 = simReadings envA 3 :=
  c2_deterministic_given_seed_and_clock envA envA 3 (fun _ => rfl)

/-- C4 counterexample: a reachable WARMUP state (first warmup tick,
`session_age + 1 = 1 ≤ 30`) with the admissible jitter −0.1 yields
intensity `min 0.9 (1/30 · 0.7 − 0.1) = −23/300 < 0`: the claimed lower
clamp to `[0, 0.9]` does not exist in the code. -/
theorem c4_counterexample :
    Reachable warmState ∧ warmState.gamingSession = true ∧
      warmState.coolingPhase = false ∧
      warmState.sessionTime + 1 ≤ GAMING_WARMUP_TIME ∧
      -0.1 ≤ negJitterRand.warmupJitter ∧ negJitterRand.warmupJitter ≤ 0.1 ∧
      (update_gaming_session warmState negJitterRand).gamingIntensity < 0 := by
  obtain ⟨hsess, htime, hcool, -⟩ := warmState_gaming
  have hj1 : (-0.1 : ℝ) ≤ negJitterRand.warmupJitter := by norm_num [negJitterRand, zeroRand]
  have hj2 : negJitterRand.warmupJitter ≤ 0.1 := by norm_num [negJitterRand, zeroRand]
  have h3 : warmState.sessionTime + 1 ≤ GAMING_WARMUP_TIME := by
    rw [htime]; norm_num [GAMING_WARMUP_TIME]
  refine ⟨Reachable.step initState zeroRand Reachable.init, hsess, hcool, h3, hj1, hj2, ?_⟩
  rw [warmup_intensity_formula warmState negJitterRand hsess hcool h3, htime]
  have hval : ((0 + 1 : ℕ) : ℝ) / (GAMING_WARMUP_TIME : ℝ) * 0.7 +
      negJitterRand.warmupJitter < 0 := by
    norm_num [GAMING_WARMUP_TIME, negJitterRand, zeroRand]
  exact lt_of_le_of_lt (min_le_right _ _) hval

/-- C4 amended: in the WARMUP phase the new intensity equals
`min 0.9 (ramp + jitter)` with ramp `(session_age / warmup_ticks) · 0.7`
— clamped above at 0.9 only.  For jitter in `[−0.1, 0.1]` the result
lies within `[−0.1, 0.9]`; there is no lower clamp at 0, so it can be
negative for small `session_age`. -/
theorem c4_warmup_ramp_clamped_above_only (s : SimState) (r : TickRand)
    (h1 : s.gamingSession = true) (h2 : s.coolingPhase = false)
    (h3 : s.sessionTime + 1 ≤ GAMING_WARMUP_TIME)
    (h4 : -0.1 ≤ r.warmupJitter) (h5 : r.warmupJitter ≤ 0.1) :
    (update_gaming_session s r).gamingIntensity =
        min 0.9 (((s.sessionTime + 1 : ℕ) : ℝ) / (GAMING_WARMUP_TIME : ℝ) * 0.7 +
          r.warmupJitter) ∧
      (update_gaming_session s r).gamingIntensity ≤ 0.9 ∧
      -0.1 ≤ (update_gaming_session s r).gamingIntensity := by
  have heq := warmup_intensity_formula s r h1 h2 h3
  refine ⟨heq, ?_, ?_⟩
  · rw [heq]
    exact min_le_left _ _
  · rw [heq]
    refine le_min (by norm_num) ?_
    have hramp : (0 : ℝ) ≤ ((s.sessionTime + 1 : ℕ) : ℝ) / (GAMING_WARMUP_TIME : ℝ) * 0.7 := by
      positivity
    linarith

theorem c4_warmup_ramp_clamped_above_only_witness :
    (update_gaming_session warmState negJitterRand).gamingIntensity ≤ 0.9 ∧
      -0.1 ≤ (update_gaming_session warmState negJitterRand).gamingIntensity := by
  obtain ⟨hsess, htime, hcool, -⟩ := warmState_gaming
  have h := c4_warmup_ramp_clamped_above_only warmState negJitterRand hsess hcool
    (by rw [htime]; norm_num [GAMING_WARMUP_TIME])
    (by norm_num [negJitterRand, zeroRand]) (by norm_num [negJitterRand, zeroRand])
  exact ⟨h.2.1, h.2.2⟩

/-- C5: in every reachable state the gaming intensity is 0 whenever the
session is inactive, and on the tick whose Bernoulli trial fires from
the inactive state the session becomes active with intensity exactly
0.1 (strictly positive) and `session_age` reset to 0. -/
theorem c5_idle_zero_start_positive (s : SimState) (r : TickRand) (hs : Reachable s) :
    (s.gamingSession = false → s.gamingIntensity = 0) ∧
      (s.gamingSession = false → r.rStart < GAMING_SESSION_START_PROBABILITY →
        (tick s r).gamingSession = true ∧ (tick s r).gamingIntensity = 0.1 ∧
          0 < (tick s r).gamingIntensity ∧ (tick s r).sessionTime = 0) := by
  refine ⟨idle_intensity_zero s hs, ?_⟩
  intro h1 h2
  have h := update_session_start s r h1 h2
  rw [tick_gamingSession, tick_gamingIntensity, tick_sessionTime, h]
  exact ⟨rfl, rfl, by norm_num, rfl⟩

theorem c5_idle_zero_start_positive_witness :
    (initState.gamingSession = false → initState.gamingIntensity = 0) ∧
      (tick initState zeroRand).gamingSession = true ∧
      (tick initState zeroRand).gamingIntensity = 0.1 := by
  have h := c5_idle_zero_start_positive initState zeroRand Reachable.init
  have h2 := h.2 rfl zeroRand_starts
  exact ⟨h.1, h2.1, h2.2.1⟩

end PCMetrics
